import Mathlib

/-!
Verification of the xflags repository (a Go command-line flag library).

The development shallowly embeds the relevant parts of the source:

* the typed value boxes of the file holding genericValue and genericSliceValue
  (the type switch in Set and String, the strconv and ParseBool conversions,
  and the Go dynamic type assertions they perform);
* the flag constructors of xflags.go (Var and the typed constructors);
* the parts whose implementation is not among the given source files
  (the choices and validator pipeline, the long-flag token step of the
  Argument Matcher, the dispatch of a built command) are modelled from the
  specification text and say so in their doc comments.

Machine integers are modelled as Nat and Int with explicit range checks,
exactly where the Go strconv functions perform them.
-/

/-! ## Go dynamic types

The source stores a destination of generic type T and performs runtime
type switches and type assertions. We model the closed set of kinds the
constraint cliGenericTypes admits, plus pointer kinds, because the String
method switches on the dynamic type of the field p, which is a pointer.
The float64 and time.Duration payloads are omitted: no claim exercises
their conversion branches, and in the String method every scalar branch,
theirs included, is unreachable (the scrutinee is a pointer).
-/

/-- The dynamic type kinds relevant to the embedding: the scalar kinds of
the constraint cliGenericTypes and pointer kinds. -/
inductive GoKind where
  | string
  | uint64
  | uint
  | int64
  | int
  | bool
  | ptr (t : GoKind)
deriving DecidableEq, Repr

/-- A Go dynamic value with its dynamic kind. -/
inductive GoVal where
  | vString (s : String)
  | vUint64 (n : Nat)
  | vUint (n : Nat)
  | vInt64 (i : Int)
  | vInt (i : Int)
  | vBool (b : Bool)
  | vPtr (v : GoVal)
deriving DecidableEq, Repr

/-- The dynamic kind of a value. -/
def GoVal.kind : GoVal → GoKind
  | .vString _ => .string
  | .vUint64 _ => .uint64
  | .vUint _ => .uint
  | .vInt64 _ => .int64
  | .vInt _ => .int
  | .vBool _ => .bool
  | .vPtr v => .ptr v.kind

/-- A Go type assertion x.(T): yields the value when its dynamic kind is
exactly T, and fails (the non comma-ok form panics) otherwise. -/
def typeAssert (v : GoVal) (t : GoKind) : Option GoVal :=
  if v.kind = t then some v else none

/-! ## strconv models

Models of the Go standard library conversions the Set branches call, at
base 10 and with the bit sizes the source passes. strconv.ParseUint with
base 10 accepts a nonempty string of ASCII digits, no sign, and reports
a range error when the value exceeds 2 to the bitSize minus one.
strconv.ParseInt strips one leading plus or minus sign and accepts the
rest as ParseUint does, with the signed range checks. A parse or range
failure makes the Go function return a non-nil error; we model the
result as an Option.
-/

/-- Whether every character of the list is an ASCII decimal digit. -/
def allDigits (cs : List Char) : Bool :=
  cs.all Char.isDigit

/-- The numeric value of a list of decimal digits, most significant first,
as strconv accumulates it. -/
def digitsVal (cs : List Char) : Nat :=
  cs.foldl (fun a c => a * 10 + (c.toNat - 48)) 0

/-- Splitting the optional leading sign, as strconv.ParseInt does:
the Bool is true for a leading minus sign. -/
def splitSign (cs : List Char) : Bool × List Char :=
  match cs with
  | '+' :: r => (false, r)
  | '-' :: r => (true, r)
  | r => (false, r)

/-- strconv.ParseUint with base 10 and the given bitSize. -/
def parseUint (s : String) (bitSize : Nat) : Option Nat :=
  if s.data ≠ [] ∧ allDigits s.data = true then
    if digitsVal s.data ≤ 2 ^ bitSize - 1 then some (digitsVal s.data) else none
  else none

/-- The range-checked digits phase of strconv.ParseInt with base 10:
the sign already split off, the digit string checked against the signed
range of the given bitSize. -/
def parseIntDigits (neg : Bool) (cs : List Char) (bitSize : Nat) : Option Int :=
  if cs ≠ [] ∧ allDigits cs = true then
    match neg with
    | true =>
      if (digitsVal cs : Int) ≤ 2 ^ (bitSize - 1) then some (-(digitsVal cs : Int)) else none
    | false =>
      if (digitsVal cs : Int) ≤ 2 ^ (bitSize - 1) - 1 then some ((digitsVal cs : Int)) else none
  else none

/-- strconv.ParseInt with base 10 and the given bitSize. -/
def parseInt (s : String) (bitSize : Nat) : Option Int :=
  parseIntDigits (splitSign s.data).1 (splitSign s.data).2 bitSize

/-- strconv.ParseBool: the literals it accepts as true and as false. -/
def parseBool (s : String) : Option Bool :=
  if s = "1" ∨ s = "t" ∨ s = "T" ∨ s = "TRUE" ∨ s = "true" ∨ s = "True" then some true
  else if s = "0" ∨ s = "f" ∨ s = "F" ∨ s = "FALSE" ∨ s = "false" ∨ s = "False" then some false
  else none

/-! ## genericValue.Set

The source method switches on the dynamic type of the stored destination
and converts the literal with the strconv call of that branch, then
writes the converted value back through a type assertion to the type
parameter T. Each branch below embeds one case of that switch, for the
instantiation T equal to the branch type; the returned outcome records
a successful store, a returned conversion error carrying the literal, or
a runtime panic from a failed type assertion. The float64 and
time.Duration branches are not embedded: no claim depends on them. -/

/-- The result of one call to a value box Set: the value stored, the
(non-nil) error returned, or a runtime panic. -/
inductive SetOutcome (α : Type) where
  | ok (a : α)
  | err (literal : String)
  | panicked
deriving DecidableEq, Repr

/-- genericValue.Set, string case: the literal is stored through the
assertion any(s).(T) with T equal to string, which succeeds. -/
def setString (s : String) : SetOutcome String :=
  match typeAssert (GoVal.vString s) GoKind.string with
  | some (GoVal.vString t) => SetOutcome.ok t
  | _ => SetOutcome.panicked

/-- genericValue.Set, uint64 case, exactly as the source writes it:
the literal is parsed with strconv.ParseUint(s, 10, 64); an error is
returned as is; a parsed value v is stored through the assertion
any(uint(v)).(T) with T equal to uint64 — the asserted value has dynamic
type uint, so the assertion target differs from the dynamic type. -/
def setUint64 (s : String) : SetOutcome Nat :=
  match parseUint s 64 with
  | none => SetOutcome.err s
  | some v =>
    match typeAssert (GoVal.vUint v) GoKind.uint64 with
    | some (GoVal.vUint64 n) => SetOutcome.ok n
    | _ => SetOutcome.panicked

/-- genericValue.Set, uint case: strconv.ParseUint(s, 10, 32), then the
assertion any(uint(o)).(T) with T equal to uint, which succeeds. -/
def setUint (s : String) : SetOutcome Nat :=
  match parseUint s 32 with
  | none => SetOutcome.err s
  | some o =>
    match typeAssert (GoVal.vUint o) GoKind.uint with
    | some (GoVal.vUint n) => SetOutcome.ok n
    | _ => SetOutcome.panicked

/-- genericValue.Set, int64 case: strconv.ParseInt(s, 10, 64), then the
assertion any(int64(v)).(T) with T equal to int64, which succeeds. -/
def setInt64 (s : String) : SetOutcome Int :=
  match parseInt s 64 with
  | none => SetOutcome.err s
  | some v =>
    match typeAssert (GoVal.vInt64 v) GoKind.int64 with
    | some (GoVal.vInt64 i) => SetOutcome.ok i
    | _ => SetOutcome.panicked

/-- genericValue.Set, int case: strconv.ParseInt(s, 10, 32), then the
assertion any(int(o)).(T) with T equal to int, which succeeds. -/
def setInt (s : String) : SetOutcome Int :=
  match parseInt s 32 with
  | none => SetOutcome.err s
  | some o =>
    match typeAssert (GoVal.vInt o) GoKind.int with
    | some (GoVal.vInt i) => SetOutcome.ok i
    | _ => SetOutcome.panicked

/-- genericValue.Set, bool case: strconv.ParseBool(s), then the assertion
any(bool(v)).(T) with T equal to bool, which succeeds. -/
def setBool (s : String) : SetOutcome Bool :=
  match parseBool s with
  | none => SetOutcome.err s
  | some v =>
    match typeAssert (GoVal.vBool v) GoKind.bool with
    | some (GoVal.vBool b) => SetOutcome.ok b
    | _ => SetOutcome.panicked

/-! ## genericValue.String

The source method reads: switch v := any(p.p).(type) — the scrutinee is
the field p, of type pointer to T, not the pointed-to value. The cases
test the scalar types, render with the strconv formatter of the case,
and the default returns the empty string. The embedding takes the
scrutinee as an explicit GoVal; the method itself is the function below
applied to the pointer value GoVal.vPtr stored. The float64 and
time.Duration cases are omitted from GoVal; like every scalar case here
they cannot match a pointer scrutinee, so the omission does not change
the function on any reachable input. -/

/-- The type switch inside genericValue.String, applied to an arbitrary
scrutinee. -/
def genericValue.String : GoVal → String
  | .vString v => v
  | .vUint64 n => Nat.repr n
  | .vUint n => Nat.repr n
  | .vInt64 i => Int.repr i
  | .vInt i => Int.repr i
  | .vBool b => if b then "true" else "false"
  | _ => ""

/-- The genericValue.String method on a box whose destination holds the
given stored value: the scrutinee any(p.p) is the pointer to it. -/
def genericValue.render (stored : GoVal) :=
  genericValue.String (GoVal.vPtr stored)

/-! ## genericSliceValue

The slice value box, at the instantiation the repository uses: the only
slice constructor, Strings in xflags.go, instantiates the element type T
to string, so the assertion any(s).(T) inside Set succeeds and appends
the raw literal. The box holds the destination slice and the hot bit;
newGenericSlice writes the caller default into the destination and
leaves hot false; the first Set call replaces the destination with a
fresh empty slice, sets hot, and every call appends the literal. -/

/-- The state of a genericSliceValue with string elements: the
destination slice p and the hot bit. -/
structure genericSliceValue where
  p : List String
  hot : Bool
deriving DecidableEq, Repr

/-- newGenericSlice: stores the default value val into the destination
and returns the box with hot still false. -/
def newGenericSlice (val : List String) : genericSliceValue :=
  { p := val, hot := false }

/-- genericSliceValue.Set: on the first call (hot false) the destination
is replaced by a fresh empty slice and hot becomes true; every call then
appends the literal to the destination. Set returns a nil error. -/
def genericSliceValue.Set (v : genericSliceValue) (s : String) : genericSliceValue :=
  let w := if !v.hot then { p := [], hot := true } else v
  { w with p := w.p ++ [s] }

/-- A sequence of Set calls in command-line order. -/
def setAll (v : genericSliceValue) (ls : List String) : genericSliceValue :=
  ls.foldl genericSliceValue.Set v

/-! ## Flag declaration (xflags.go)

The Flag struct itself is declared in a source file that is not among
the given ones; its fields are read off the Var constructor, which
assigns Name, Usage, MinCount, MaxCount, Value and ShortName. The value
boxes attached by the typed constructors are described by which box they
are and, for a generic box, the isBool capability bit newGeneric is
given (the isBoolValue function of the source reads that bit back, and
reports false for a box that does not implement BoolValue). -/

/-- Description of the value box a flag carries: a genericValue with its
stored default and its isBool bit, a genericSliceValue with its default
elements, or a funcValue. -/
inductive ValueDesc where
  | generic (stored : GoVal) (isBool : Bool)
  | genericSlice (stored : List String)
  | funcValue
deriving Repr

/-- isBoolValue of the source: a genericValue implements BoolValue and
IsBoolFlag returns its isBool field; the other boxes do not implement
BoolValue, so the function returns false for them. -/
def isBoolValue : ValueDesc → Bool
  | ValueDesc.generic _ isBool => isBool
  | _ => false

/-- The Flag record, with the fields Var assigns (the name Flag itself is
taken by Mathlib, hence FlagDesc). -/
structure FlagDesc where
  Name : String
  ShortName : String
  Usage : String
  MinCount : Nat
  MaxCount : Nat
  Value : ValueDesc

/-- The builder wrapping an in-progress Flag, as Var builds it. -/
structure FlagBuilder where
  flag : FlagDesc

/-- Modelled from the spec: the default minimum occurrence count used by
Var; the constant declaration is not among the given source files. The
spec gives default cardinality minimum 0 for scalar flags. -/
def defaultMinNArgs : Nat := 0

/-- Modelled from the spec: the default maximum occurrence count used by
Var; the constant declaration is not among the given source files. The
spec gives default cardinality maximum 1 for scalar flags. -/
def defaultMaxNArgs : Nat := 1

/-- Var of xflags.go: builds the FlagBuilder with the given name, usage
and value box and the default cardinality; when the name is exactly one
character long, the name is moved into ShortName and Name is left empty. -/
def Var (value : ValueDesc) (name usage : String) : FlagBuilder :=
  let c : FlagBuilder :=
    { flag :=
        { Name := name
          ShortName := ""
          Usage := usage
          MinCount := defaultMinNArgs
          MaxCount := defaultMaxNArgs
          Value := value } }
  if name.length = 1 then
    { flag := { c.flag with ShortName := c.flag.Name, Name := "" } }
  else c

/-- Modelled from the spec: the NArgs builder method, whose
implementation is not among the given source files; it sets the
occurrence bounds, 0 as maximum meaning unbounded. -/
def FlagBuilder.NArgs (c : FlagBuilder) (mn mx : Nat) : FlagBuilder :=
  { flag := { c.flag with MinCount := mn, MaxCount := mx } }

/-- Bool of xflags.go: a generic bool box with isBool true. -/
def boolFlag (name : String) (value : Bool) (usage : String) : FlagBuilder :=
  Var (ValueDesc.generic (GoVal.vBool value) true) name usage

/-- Int of xflags.go: a generic int box with isBool false. -/
def intFlag (name : String) (value : Int) (usage : String) : FlagBuilder :=
  Var (ValueDesc.generic (GoVal.vInt value) false) name usage

/-- String of xflags.go: a generic string box with isBool false. -/
def stringFlag (name value usage : String) : FlagBuilder :=
  Var (ValueDesc.generic (GoVal.vString value) false) name usage

/-- Strings of xflags.go: a string slice box, then NArgs(0, 0). -/
def stringsFlag (name : String) (value : List String) (usage : String) : FlagBuilder :=
  (Var (ValueDesc.genericSlice value) name usage).NArgs 0 0

/-! ## The per-literal validation pipeline

The implementation of the choices and validator checks (the flag.go file
holding Flag.Parse and ArgumentError) is not among the given source
files; only its tests are. The pipeline is therefore modelled from the
specification text, which fixes the order and the short-circuiting. -/

/-- Modelled from the spec: the parts of a Flag Descriptor the per-literal
pipeline reads — the flag name, the optional finite choices set (empty
list standing for no choices set), and the optional caller validator
(returning some cause on rejection). The implementing file is not among
the given source files. -/
structure FlagSpec where
  name : String
  choices : List String
  validator : Option (String → Option String)

/-- Modelled from the spec: the outcome of validating one supplied
literal — success, or an Argument Error naming the flag and the rejected
literal, tagged with the step that produced it. -/
inductive ArgOutcome where
  | ok
  | choicesError (flag lit : String)
  | validatorError (flag lit cause : String)
  | conversionError (flag lit cause : String)
deriving DecidableEq, Repr

/-- The outcome of the pipeline together with whether the value box Set
was reached. -/
structure LiteralResult where
  outcome : ArgOutcome
  setCalled : Bool
deriving DecidableEq, Repr

/-- The delegation step: the value box Set runs on the literal; a
conversion failure becomes an Argument Error tagged with the flag name. -/
def runSet (f : FlagSpec) (setter : String → Option String) (lit : String) : LiteralResult :=
  match setter lit with
  | some cause => { outcome := ArgOutcome.conversionError f.name lit cause, setCalled := true }
  | none => { outcome := ArgOutcome.ok, setCalled := true }

/-- Modelled from the spec: validation order in the Argument Matcher for
one supplied literal, strict and short-circuiting — 1. a choices set
exists and the literal is not a member: Argument Error; 2. a validator
exists and returns an error: Argument Error wrapping it, tagged with the
flag name; 3. delegate to the value box Set. The implementing file is
not among the given source files. -/
def processLiteral (f : FlagSpec) (setter : String → Option String) (lit : String) :
    LiteralResult :=
  if f.choices ≠ [] ∧ lit ∉ f.choices then
    { outcome := ArgOutcome.choicesError f.name lit, setCalled := false }
  else
    match f.validator with
    | some val =>
      match val lit with
      | some cause =>
        { outcome := ArgOutcome.validatorError f.name lit cause, setCalled := false }
      | none => runSet f setter lit
    | none => runSet f setter lit

/-! ## The long-flag token step and dispatch -/

/-- Modelled from the spec: the Argument Matcher step for one long-form
flag token, whose implementation is not among the given source files. A
long-form token may embed its value after an equals sign; if no embedded
value is present and the matched box is not boolean-capable, the
following token is consumed as the value; if the box is boolean-capable
and no embedded value is present, the flag is satisfied with the literal
true and the next token is left for the subsequent iteration. The result
is the literal fed to Set and the tokens left, or none when a value
token is required and missing. -/
def longFlagStep (isBool : Bool) (embedded : Option String) (rest : List String) :
    Option (String × List String) :=
  match embedded with
  | some v => some (v, rest)
  | none =>
    if isBool then some ("true", rest)
    else
      match rest with
      | v :: r => some (v, r)
      | [] => none

/-- Modelled from the spec: the outcome of matching and routing a built
command — a successful dispatch invokes the terminal handler, a failure
carries the exit code the matcher produced. The implementing file is not
among the given source files. -/
inductive Dispatch where
  | success (handler : List String → Int)
  | failure (code : Int)

/-- A built command, reduced to what dispatch does with it. -/
structure Command where
  dispatch : Dispatch

/-- Modelled from the spec: Command.Run — a successful dispatch returns
the handler exit code unexamined (and records that the handler ran); a
failed one returns the failure code without invoking any handler. -/
def Command.Run (c : Command) (args : List String) : Int × Bool :=
  match c.dispatch with
  | Dispatch.success h => (h args, true)
  | Dispatch.failure code => (code, false)

/-- RunWithArgs of xflags.go: cmd.Command() returning an error prints it
and returns 1 (no handler can have run); otherwise the built command is
run on the arguments. The Commander argument is modelled by the result
of its Command() method. The second component records whether a handler
was invoked. -/
def RunWithArgs (cmd : Except String Command) (args : List String) : Int × Bool :=
  match cmd with
  | Except.error _ => (1, false)
  | Except.ok c => c.Run args

/-! ## Spec-side numeral semantics

A declarative description of optional-sign base-10 numerals and their
mathematical values, with no range restriction: the reference point the
range behaviour of the parsers is stated against. -/

/-- The digits phase with no range restriction: the value denoted by a
nonempty digit string under the already split sign. -/
def signedDecimalDigits (neg : Bool) (cs : List Char) : Option Int :=
  if cs ≠ [] ∧ allDigits cs = true then
    some (match neg with | true => -(digitsVal cs : Int) | false => (digitsVal cs : Int))
  else none

/-- The mathematical value of an optional-sign base-10 integer literal,
with no range restriction. -/
def signedDecimal (s : String) : Option Int :=
  signedDecimalDigits (splitSign s.data).1 (splitSign s.data).2

/-- The mathematical value of an unsigned base-10 integer literal, with
no range restriction. -/
def unsignedDecimal (s : String) : Option Nat :=
  if s.data ≠ [] ∧ allDigits s.data = true then some (digitsVal s.data) else none


/-! ## Helper lemmas -/

/-- Set on a cold slice box: the destination becomes the one-element
slice of the literal and the box becomes hot. -/
theorem setSlice_cold (v : genericSliceValue) (s : String) (h : v.hot = false) :
    genericSliceValue.Set v s = { p := [s], hot := true } := by
  simp [genericSliceValue.Set, h]

/-- Set on a hot slice box appends the literal. -/
theorem setSlice_hot (v : genericSliceValue) (s : String) (h : v.hot = true) :
    genericSliceValue.Set v s = { p := v.p ++ [s], hot := true } := by
  simp [genericSliceValue.Set, h]

/-- A run of Set calls on a hot box appends the literals in order. -/
theorem setAll_hot (ls : List String) (v : genericSliceValue) (h : v.hot = true) :
    setAll v ls = { p := v.p ++ ls, hot := true } := by
  induction ls generalizing v with
  | nil =>
    cases v
    simp only [setAll, List.foldl_nil, List.append_nil]
    simp_all
  | cons a as ih =>
    simp only [setAll, List.foldl_cons]
    rw [setSlice_hot v a h]
    have step := ih { p := v.p ++ [a], hot := true } rfl
    simp only [setAll] at step
    rw [step]
    simp

/-- The int branch of Set follows its parse result: the assertion
any(int(o)).(int) always succeeds. -/
theorem setInt_of_parse (s : String) :
    (∀ i, parseInt s 32 = some i → setInt s = SetOutcome.ok i) ∧
    (parseInt s 32 = none → setInt s = SetOutcome.err s) := by
  constructor
  · intro i h
    simp [setInt, h, typeAssert, GoVal.kind]
  · intro h
    simp [setInt, h]

/-- The uint branch of Set follows its parse result: the assertion
any(uint(o)).(uint) always succeeds. -/
theorem setUint_of_parse (s : String) :
    (∀ n, parseUint s 32 = some n → setUint s = SetOutcome.ok n) ∧
    (parseUint s 32 = none → setUint s = SetOutcome.err s) := by
  constructor
  · intro n h
    simp [setUint, h, typeAssert, GoVal.kind]
  · intro h
    simp [setUint, h]

/-- The range behaviour of the ParseInt digits phase at bit size 32,
against the unrestricted numeral value. -/
theorem parseIntDigits32_spec (neg : Bool) (cs : List Char) :
    (∀ i, signedDecimalDigits neg cs = some i →
        ((-(2147483648 : Int) ≤ i ∧ i ≤ 2147483647) → parseIntDigits neg cs 32 = some i) ∧
        ((i < -(2147483648 : Int) ∨ (2147483647 : Int) < i) → parseIntDigits neg cs 32 = none)) ∧
    (signedDecimalDigits neg cs = none → parseIntDigits neg cs 32 = none) := by
  by_cases hc : cs ≠ [] ∧ allDigits cs = true
  · have hn : (0 : Int) ≤ (digitsVal cs : Int) := Int.ofNat_nonneg _
    constructor
    · intro i hi
      unfold signedDecimalDigits at hi
      rw [if_pos hc, Option.some_inj] at hi
      cases neg with
      | false =>
        simp only at hi
        subst hi
        constructor
        · rintro ⟨hlo, hhi⟩
          unfold parseIntDigits
          rw [if_pos hc]
          simp only
          rw [if_pos (by norm_num; omega)]
        · intro hout
          unfold parseIntDigits
          rw [if_pos hc]
          simp only
          rw [if_neg (by norm_num; omega)]
      | true =>
        simp only at hi
        subst hi
        constructor
        · rintro ⟨hlo, hhi⟩
          unfold parseIntDigits
          rw [if_pos hc]
          simp only
          rw [if_pos (by norm_num; omega)]
        · intro hout
          unfold parseIntDigits
          rw [if_pos hc]
          simp only
          rw [if_neg (by norm_num; omega)]
    · intro hnone
      unfold signedDecimalDigits at hnone
      rw [if_pos hc] at hnone
      exact absurd hnone (by simp)
  · constructor
    · intro i hi
      unfold signedDecimalDigits at hi
      rw [if_neg hc] at hi
      exact absurd hi (by simp)
    · intro _
      unfold parseIntDigits
      rw [if_neg hc]

/-- The range behaviour of ParseUint at bit size 32, against the
unrestricted numeral value. -/
theorem parseUint32_spec (s : String) :
    (∀ n, unsignedDecimal s = some n →
        ((n ≤ 4294967295 → parseUint s 32 = some n) ∧
         (4294967295 < n → parseUint s 32 = none))) ∧
    (unsignedDecimal s = none → parseUint s 32 = none) := by
  by_cases hc : s.data ≠ [] ∧ allDigits s.data = true
  · constructor
    · intro n hn
      unfold unsignedDecimal at hn
      rw [if_pos hc, Option.some_inj] at hn
      subst hn
      constructor
      · intro hle
        unfold parseUint
        rw [if_pos hc, if_pos (by norm_num; omega)]
      · intro hgt
        unfold parseUint
        rw [if_pos hc, if_neg (by norm_num; omega)]
    · intro hnone
      unfold unsignedDecimal at hnone
      rw [if_pos hc] at hnone
      exact absurd hnone (by simp)
  · constructor
    · intro n hn
      unfold unsignedDecimal at hn
      rw [if_neg hc] at hn
      exact absurd hn (by simp)
    · intro _
      unfold parseUint
      rw [if_neg hc]

/-- The int branch never panics: its write-back assertion targets the
dynamic type it asserts. -/
theorem setInt_no_panic (s : String) : setInt s ≠ SetOutcome.panicked := by
  rcases h : parseInt s 32 with _ | o
  · simp [setInt, h]
  · simp [setInt, h, typeAssert, GoVal.kind]

/-- The uint branch never panics: its write-back assertion targets the
dynamic type it asserts. -/
theorem setUint_no_panic (s : String) : setUint s ≠ SetOutcome.panicked := by
  rcases h : parseUint s 32 with _ | o
  · simp [setUint, h]
  · simp [setUint, h, typeAssert, GoVal.kind]

/-! ## The claims -/

/-- C1: the round-trip law fails in the code. Set on a string box stores
the literal (and on a bool box stores true for the literal true), but
genericValue.String switches on the dynamic type of the pointer field p,
so no scalar case can match and it returns the empty string for every
stored value: the canonical literal bar renders back as the empty
string, not bar. -/
theorem c1_roundtrip_broken_string_render :
    setString "bar" = SetOutcome.ok "bar" ∧
    genericValue.render (GoVal.vString "bar") = "" ∧
    setBool "true" = SetOutcome.ok true ∧
    genericValue.render (GoVal.vBool true) = "" := by
  refine ⟨by decide, by decide, by decide, by decide⟩

/-- C2: the uint64 branch of Set panics on every literal it parses
successfully — ParseUint(s, 10, 64) succeeds and the write-back
performs the type assertion any(uint(v)).(uint64), which fails at
runtime — while literals that do not parse return a conversion error as
the claim says. -/
theorem c2_uint64_set_panics_on_valid_literal :
    setUint64 "1" = SetOutcome.panicked ∧
    setUint64 "18446744073709551615" = SetOutcome.panicked ∧
    setUint64 "abc" = SetOutcome.err "abc" ∧
    setUint64 "18446744073709551616" = SetOutcome.err "18446744073709551616" ∧
    setUint64 "-1" = SetOutcome.err "-1" := by
  refine ⟨by decide, by decide, by decide, by decide, by decide⟩

/-- C3, counterexample: 2147483648 is a signed base-10 integer within 64
bits and 4294967296 a non-negative one within 64 bits, so on a 64-bit
platform the claim says both are accepted; the code parses the int and
uint branches with bit size 32 and rejects both with a conversion
error. -/
theorem c3_counterexample_native_width :
    setInt "2147483648" = SetOutcome.err "2147483648" ∧
    setUint "4294967296" = SetOutcome.err "4294967296" := by
  refine ⟨by decide, by decide⟩

/-- C3, amended: the accepted numeric ranges of the int and uint
branches are the 32-bit ranges regardless of platform — an int-typed
flag accepts exactly the signed base-10 literals with value in
[-2^31, 2^31 - 1], a uint-typed flag exactly the non-negative base-10
literals with value at most 2^32 - 1; literals outside those ranges or
not numerals yield a conversion error, and neither branch panics. -/
theorem c3_amended_ranges_are_32bit :
    (∀ (s : String) (i : Int), signedDecimal s = some i →
        ((-(2 ^ 31) ≤ i ∧ i ≤ 2 ^ 31 - 1) → setInt s = SetOutcome.ok i) ∧
        ((i < -(2 ^ 31) ∨ 2 ^ 31 - 1 < i) → setInt s = SetOutcome.err s)) ∧
    (∀ s : String, signedDecimal s = none → setInt s = SetOutcome.err s) ∧
    (∀ (s : String) (n : Nat), unsignedDecimal s = some n →
        ((n ≤ 2 ^ 32 - 1 → setUint s = SetOutcome.ok n) ∧
         (2 ^ 32 - 1 < n → setUint s = SetOutcome.err s))) ∧
    (∀ s : String, unsignedDecimal s = none → setUint s = SetOutcome.err s) ∧
    (∀ s : String, setInt s ≠ SetOutcome.panicked) ∧
    (∀ s : String, setUint s ≠ SetOutcome.panicked) := by
  refine ⟨?_, ?_, ?_, ?_, setInt_no_panic, setUint_no_panic⟩
  · intro s i hi
    have hspec := (parseIntDigits32_spec (splitSign s.data).1 (splitSign s.data).2).1 i hi
    constructor
    · rintro ⟨hlo, hhi⟩
      refine (setInt_of_parse s).1 i (hspec.1 ⟨by norm_num at hlo ⊢; omega, by norm_num at hhi ⊢; omega⟩)
    · intro hout
      refine (setInt_of_parse s).2 (hspec.2 ?_)
      rcases hout with h | h
      · exact Or.inl (by norm_num at h ⊢; omega)
      · exact Or.inr (by norm_num at h ⊢; omega)
  · intro s hs
    exact (setInt_of_parse s).2 ((parseIntDigits32_spec (splitSign s.data).1 (splitSign s.data).2).2 hs)
  · intro s n hn
    have hspec := (parseUint32_spec s).1 n hn
    constructor
    · intro hle
      exact (setUint_of_parse s).1 n (hspec.1 (by norm_num at hle ⊢; omega))
    · intro hgt
      exact (setUint_of_parse s).2 (hspec.2 (by norm_num at hgt ⊢; omega))
  · intro s hs
    exact (setUint_of_parse s).2 ((parseUint32_spec s).2 hs)

/-- C3, witness: the 32-bit extremes are accepted and stored. -/
theorem c3_amended_witness :
    setInt "-2147483648" = SetOutcome.ok (-2147483648) ∧
    setUint "4294967295" = SetOutcome.ok 4294967295 :=
  ⟨((c3_amended_ranges_are_32bit.1 "-2147483648" (-2147483648) (by decide)).1 (by decide)),
   ((c3_amended_ranges_are_32bit.2.2.1 "4294967295" 4294967295 (by decide)).1 (by decide))⟩

/-- C4: on a collection-typed box the first Set call replaces the
destination with a fresh empty slice (discarding any caller default) and
appends, every later call appends, so a run of Set calls with literals
l1..ln leaves the destination equal to [l1, ..., ln] in call order. -/
theorem c4_slice_set_calls_in_order :
    (∀ (v : genericSliceValue) (s : String), v.hot = false →
        genericSliceValue.Set v s = { p := [s], hot := true }) ∧
    (∀ (v : genericSliceValue) (s : String), v.hot = true →
        (genericSliceValue.Set v s).p = v.p ++ [s]) ∧
    (∀ (val ls : List String), ls ≠ [] → (setAll (newGenericSlice val) ls).p = ls) := by
  refine ⟨setSlice_cold, fun v s h => by rw [setSlice_hot v s h], ?_⟩
  intro val ls h
  cases ls with
  | nil => exact absurd rfl h
  | cons a as =>
    simp only [setAll, List.foldl_cons]
    rw [setSlice_cold (newGenericSlice val) a rfl]
    have step := setAll_hot as { p := [a], hot := true } rfl
    simp only [setAll] at step
    rw [step]
    simp

/-- C4, witness: two Set calls on a box holding a caller default leave
exactly the two literals in call order. -/
theorem c4_witness :
    (setAll (newGenericSlice ["d"]) ["a", "b"]).p = ["a", "b"] :=
  c4_slice_set_calls_in_order.2.2 ["d"] ["a", "b"] (by decide)

/-- C5: a repeatable flag never supplied keeps the caller default —
newGenericSlice stores the default into the destination with the hot bit
clear, and with no Set calls the destination still holds it. -/
theorem c5_untouched_flag_keeps_default (val : List String) :
    (setAll (newGenericSlice val) []).p = val ∧ (newGenericSlice val).hot = false :=
  ⟨rfl, rfl⟩

/-- C6: with a declared choices set, a supplied literal succeeds only if
it is string-equal to a member; a literal not in the set fails with the
Argument Error naming the flag and the rejected literal, before the
value box conversion runs. -/
theorem c6_choices_membership_checked_first :
    (∀ (f : FlagSpec) (setter : String → Option String) (lit : String),
        f.choices ≠ [] → lit ∉ f.choices →
        processLiteral f setter lit =
          { outcome := ArgOutcome.choicesError f.name lit, setCalled := false }) ∧
    (∀ (f : FlagSpec) (setter : String → Option String) (lit : String),
        f.choices ≠ [] → (processLiteral f setter lit).outcome = ArgOutcome.ok →
        lit ∈ f.choices) := by
  constructor
  · intro f setter lit hne hmem
    unfold processLiteral
    rw [if_pos ⟨hne, hmem⟩]
  · intro f setter lit hne hok
    by_contra hmem
    unfold processLiteral at hok
    rw [if_pos ⟨hne, hmem⟩] at hok
    exact absurd hok (by simp)

/-- C6, witness: with choices bar and baz, the prefix literal ba of a
member is rejected with the Argument Error naming the flag and the
literal, and conversion is never reached. -/
theorem c6_witness :
    processLiteral { name := "foo", choices := ["bar", "baz"], validator := none }
        (fun _ => none) "ba" =
      { outcome := ArgOutcome.choicesError "foo" "ba", setCalled := false } :=
  c6_choices_membership_checked_first.1
    { name := "foo", choices := ["bar", "baz"], validator := none }
    (fun _ => none) "ba" (by decide) (by decide)

/-- C7: the checks run in the fixed short-circuiting order choices,
validator, Set — a literal failing the choices check reports the choices
failure even when conversion would also fail, and Set never runs; a
literal passing choices but rejected by the validator reports the
validator error and Set never runs; when both pass, the pipeline
delegates to Set. -/
theorem c7_pipeline_short_circuit_order :
    (∀ (f : FlagSpec) (setter : String → Option String) (lit cause : String),
        f.choices ≠ [] → lit ∉ f.choices → setter lit = some cause →
        processLiteral f setter lit =
          { outcome := ArgOutcome.choicesError f.name lit, setCalled := false }) ∧
    (∀ (f : FlagSpec) (setter : String → Option String) (lit : String)
        (val : String → Option String) (cause : String),
        (f.choices = [] ∨ lit ∈ f.choices) → f.validator = some val → val lit = some cause →
        processLiteral f setter lit =
          { outcome := ArgOutcome.validatorError f.name lit cause, setCalled := false }) ∧
    (∀ (f : FlagSpec) (setter : String → Option String) (lit : String)
        (val : String → Option String),
        (f.choices = [] ∨ lit ∈ f.choices) → f.validator = some val → val lit = none →
        processLiteral f setter lit = runSet f setter lit ∧
        (processLiteral f setter lit).setCalled = true) := by
  refine ⟨?_, ?_, ?_⟩
  · intro f setter lit cause hne hmem _
    unfold processLiteral
    rw [if_pos ⟨hne, hmem⟩]
  · intro f setter lit val cause h hval hcause
    have hcond : ¬(f.choices ≠ [] ∧ lit ∉ f.choices) := by
      rcases h with h | h
      · exact fun hh => hh.1 h
      · exact fun hh => hh.2 h
    simp [processLiteral, hcond, hval, hcause]
  · intro f setter lit val h hval hok
    have hcond : ¬(f.choices ≠ [] ∧ lit ∉ f.choices) := by
      rcases h with h | h
      · exact fun hh => hh.1 h
      · exact fun hh => hh.2 h
    constructor
    · simp [processLiteral, hcond, hval, hok]
    · rcases hs : setter lit with _ | cause <;>
        simp [processLiteral, hcond, hval, hok, runSet, hs]

/-- C7, witness: a validator in the style of the example rejects the
literal, the result is the validator Argument Error tagged with the flag
name, and the value box Set is never reached. -/
theorem c7_witness :
    processLiteral
        { name := "ip", choices := [],
          validator := some (fun a => if a = "256.0.0.1" then some "invalid IP" else none) }
        (fun _ => none) "256.0.0.1" =
      { outcome := ArgOutcome.validatorError "ip" "256.0.0.1" "invalid IP",
        setCalled := false } :=
  c7_pipeline_short_circuit_order.2.1
    { name := "ip", choices := [],
      validator := some (fun a => if a = "256.0.0.1" then some "invalid IP" else none) }
    (fun _ => none) "256.0.0.1"
    (fun a => if a = "256.0.0.1" then some "invalid IP" else none) "invalid IP"
    (Or.inl rfl) rfl (by decide)

/-- C8: a boolean flag supplied bare — the Bool constructor marks its
box boolean-capable, the matcher feeds the literal true without
consuming the following token (the remaining tokens are exactly those
that followed), and the bool branch of Set stores true. -/
theorem c8_bool_flag_bare (rest : List String) (name usage : String) (b : Bool) :
    isBoolValue (boolFlag name b usage).flag.Value = true ∧
    longFlagStep true none rest = some ("true", rest) ∧
    setBool "true" = SetOutcome.ok true := by
  refine ⟨?_, rfl, by decide⟩
  by_cases h : name.length = 1 <;> simp [boolFlag, Var, isBoolValue, h]

/-- C9: RunWithArgs returns 1 and invokes no handler when building the
command tree fails, and passes the handler exit code through unexamined
when construction and dispatch succeed. -/
theorem c9_runwithargs_exit_codes :
    (∀ (e : String) (args : List String), RunWithArgs (Except.error e) args = (1, false)) ∧
    (∀ (h : List String → Int) (args : List String),
        RunWithArgs (Except.ok { dispatch := Dispatch.success h }) args = (h args, true)) :=
  ⟨fun _ _ => rfl, fun _ _ => rfl⟩

/-- C10: a flag declared through Var with a one-character name gets that
character as ShortName and an empty long Name, and the typed
constructors inherit this because they all go through Var. -/
theorem c10_one_char_name_is_short_only (value : ValueDesc) (name usage : String)
    (b : Bool) (i : Int) (sv : String) (ls : List String) (h : name.length = 1) :
    ((Var value name usage).flag.ShortName = name ∧ (Var value name usage).flag.Name = "") ∧
    ((boolFlag name b usage).flag.ShortName = name ∧ (boolFlag name b usage).flag.Name = "") ∧
    ((intFlag name i usage).flag.ShortName = name ∧ (intFlag name i usage).flag.Name = "") ∧
    ((stringFlag name sv usage).flag.ShortName = name ∧ (stringFlag name sv usage).flag.Name = "") ∧
    ((stringsFlag name ls usage).flag.ShortName = name ∧
      (stringsFlag name ls usage).flag.Name = "") := by
  simp [Var, boolFlag, intFlag, stringFlag, stringsFlag, FlagBuilder.NArgs, h]

/-- C10, witness: the one-character name x becomes the short name. -/
theorem c10_witness :
    (Var ValueDesc.funcValue "x" "docs").flag.ShortName = "x" ∧
    (Var ValueDesc.funcValue "x" "docs").flag.Name = "" :=
  (c10_one_char_name_is_short_only ValueDesc.funcValue "x" "docs" true 0 "" [] (by decide)).1
